import Mathlib

/-!
Verification development for the redis-py-test-app load generator.

Shallow embedding of the core engine logic of the repository:
the orchestrator shutdown paths of TestRunner (test_runner.py), the
per-worker rate limiter, client pool allocation (test_runner.py and
redis_client_manager.py), workload operation selection and key
generation (workloads.py), batched pipeline/transaction execution
(workloads.py), pub/sub metrics recording (workloads.py and
redis_client.py), and the metrics aggregator (metrics.py).

Machine floats in the source are modelled as rationals; randomness is
modelled by passing the drawn value (or the applied distribution) as an
explicit argument; thread interleaving is modelled by the explicit
orders of events the control flow allows.
-/

namespace RedisPyTestApp

/-! ### Orchestrator shutdown paths (test_runner.py, TestRunner) -/

/-- State of the runner that the shutdown logic manipulates: the shared
stop event (threading.Event) and how many times the final summary has
been emitted by the stop routine. -/
structure RunnerState where
  stopEventSet : Bool
  summaryCount : Nat
  deriving Repr, DecidableEq

/-- Initial runner state: stop event clear, no summary emitted. -/
def initialRunnerState : RunnerState := ⟨false, 0⟩

/-- Model of TestRunner.stop: if the stop event is already set it
returns immediately; otherwise it sets the event, joins workers, closes
clients and calls the summary output exactly once. -/
def stopRoutine (s : RunnerState) : RunnerState :=
  if s.stopEventSet then s
  else { stopEventSet := true, summaryCount := s.summaryCount + 1 }

/-- Model of a worker setting the shared stop event directly
(test_runner.py line 139, the all-workers-failed branch), without
running the stop routine. -/
def workerSetStopFlag (s : RunnerState) : RunnerState :=
  { s with stopEventSet := true }

/-- Shutdown via an external signal: the signal handler calls stop,
then the main loop observes the event and the finally block of start
calls stop again. -/
def signalShutdownPath (s : RunnerState) : RunnerState :=
  stopRoutine (stopRoutine s)

/-- Shutdown via elapsed configured duration: the wait loop breaks out
without touching the stop event, then the finally block of start calls
stop. -/
def durationShutdownPath (s : RunnerState) : RunnerState :=
  stopRoutine s

/-- Shutdown via the all-workers-failed policy: the last failing worker
sets the stop event directly, the main wait loop then exits, and the
finally block of start calls stop. -/
def allWorkersFailedPath (s : RunnerState) : RunnerState :=
  stopRoutine (workerSetStopFlag s)

/-! ### Client pool allocation (test_runner.py TestRunner.start and
redis_client_manager.py RedisClientManager) -/

/-- Model of the client creation loop in TestRunner.start (lines
204-219): each entry of the list is the outcome of one RedisClient
construction; on the first failure all created clients are closed and
the exception is re-raised, aborting the run. On success it returns the
number of clients obtained. -/
def runnerCreateClients : List Bool → Except String Nat
  | [] => Except.ok 0
  | ok :: rest =>
      if ok then (runnerCreateClients rest).map (fun n => n + 1)
      else Except.error "client creation failed"

/-- Model of RedisClientManager with initialized clients (lines 33-49):
each failed construction is logged and skipped, and a RuntimeError is
raised only if zero clients were created. -/
def managerInitClients (attempts : List Bool) : Except String Nat :=
  let created := (attempts.filter (fun b => b)).length
  if created = 0 then Except.error "Failed to create any Redis client instances"
  else Except.ok created

/-! ### Per-worker rate limiter (test_runner.py, TestRunner worker loop) -/

/-- Per-thread target computed in the worker thread: the configured
global target divided by clients times threads per client; Python
truthiness means that an absent or zero target disables pacing. -/
def threadTargetOps (targetOpsPerSecond : Option Nat)
    (clients threadsPerClient : Nat) : Option ℚ :=
  match targetOpsPerSecond with
  | none => none
  | some t =>
      if t = 0 then none
      else some ((t : ℚ) / ((clients * threadsPerClient : Nat) : ℚ))

/-- Pacing step executed after each unit of work in the worker loop:
with a per-thread target, if the cumulative count exceeds the expected
count for the elapsed time, sleep for the excess divided by the target,
capped at a tenth of a second; without a target nothing happens. The
returned value is the length of the sleep performed. -/
def pacingSleep (threadTarget : Option ℚ) (elapsed operationCount : ℚ) : ℚ :=
  match threadTarget with
  | none => 0
  | some tt =>
      let expected := elapsed * tt
      if expected < operationCount then
        let sleepTime := (operationCount - expected) / tt
        if 0 < sleepTime then min sleepTime (1 / 10) else 0
      else 0

/-! ### Operation selection (workloads.py, BaseWorkload) -/

/-- Outcome space of one call of the selection code: which random
primitive the code applies and to which carrier. The weighted form
stands for random.choices over the keys of the weight map with its
values as weights; the uniform form stands for random.choice. -/
inductive Selection where
  | weighted (pairs : List (String × ℚ))
  | uniform (choices : List String)
  deriving Repr, DecidableEq

/-- Built-in default operation set keyed by workload type, from
BaseWorkload with the get default operation method (lines 120-164). -/
def defaultOperations (workloadType : String) : List String :=
  if workloadType = "high_throughput" then
    ["SET", "GET", "INCR", "DECR", "DEL", "EXISTS", "EXPIRE", "TTL",
     "LPUSH", "RPUSH", "LRANGE", "LPOP", "RPOP", "LLEN", "LTRIM",
     "SADD", "SREM", "SMEMBERS", "SCARD",
     "HSET", "HGET", "HDEL", "HGETALL", "HLEN",
     "ZADD", "ZREM", "ZRANGE", "ZCARD", "ZSCORE"]
  else if workloadType = "list_operations" then
    ["LPUSH", "RPUSH", "LRANGE", "LPOP", "RPOP", "LLEN", "LTRIM"]
  else if workloadType = "pubsub_heavy" then
    ["PUBLISH", "SUBSCRIBE"]
  else
    ["SET", "GET", "INCR", "DECR", "DEL", "EXISTS"]

/-- Model of BaseWorkload with the choose operation method (lines
103-118): empty operation list falls back to the per-type default set;
an empty weight map gives a uniform choice over the operation list;
otherwise a weighted choice over the weight map. -/
def chooseOperation (operations : List String)
    (operationWeights : List (String × ℚ)) (workloadType : String) : Selection :=
  if operations.isEmpty then Selection.uniform (defaultOperations workloadType)
  else if operationWeights.isEmpty then Selection.uniform operations
  else Selection.weighted operationWeights

/-- A selection is well-defined when the carrier handed to the random
primitive is nonempty. -/
def selectionWellDefined : Selection → Bool
  | Selection.weighted pairs => !pairs.isEmpty
  | Selection.uniform choices => !choices.isEmpty

/-! ### Key generation (workloads.py, BaseWorkload) -/

/-- Lowercasing of one ASCII character, as the Python lower method acts
on the ASCII-only operation identifiers passed to key generation. -/
def lowerChar (c : Char) : Char :=
  if 'A' ≤ c ∧ c ≤ 'Z' then Char.ofNat (c.toNat + 32) else c

/-- Lowercasing of one ASCII operation identifier. -/
def asciiLower (s : String) : String := String.mk (s.data.map lowerChar)

/-- Model of BaseWorkload with the generate key method (lines 64-78).
randDraw stands for the value drawn by random.randint over zero to
keyRange minus one; the per-instance counter is threaded explicitly.
The result is the generated key together with the updated counter. -/
def generateKey (keyPref : String) (keyRange : Int) (operation : Option String)
    (randDraw : Int) (counter : Int) : String × Int :=
  let keyId := if 0 < keyRange then randDraw else counter
  let counterNext := if 0 < keyRange then counter else counter + 1
  match operation with
  | some op => (keyPref ++ ":" ++ asciiLower op ++ ":" ++ toString keyId, counterNext)
  | none => (keyPref ++ ":" ++ toString keyId, counterNext)

/-- Keys produced by n successive generations with keyRange zero,
starting from the given counter value, each call passing an operation
name as every workload strategy does. -/
def generateKeySeq (keyPref op : String) : Nat → Int → List String
  | 0, _ => []
  | n + 1, counter =>
      let r := generateKey keyPref 0 (some op) 0 counter
      r.1 :: generateKeySeq keyPref op n r.2

/-! ### Metrics records and batch workloads (workloads.py, metrics.py) -/

/-- One call of MetricsCollector.record_operation as issued by the
workload code: operation identifier, elapsed duration, success flag and
optional error kind. -/
structure OpRecord where
  operation : String
  duration : ℚ
  success : Bool
  errorType : Option String
  deriving Repr, DecidableEq

/-- Result of one call of execute_operation of a batch workload: the
record_operation calls it issued, the value it returned, and whether an
exception escaped it into the worker loop. -/
structure BatchResult where
  records : List OpRecord
  returned : Nat
  raised : Bool
  deriving Repr, DecidableEq

/-- Model of PipelineWorkload.execute_operation (lines 254-458) after
the batch of operations has been assembled: on an empty batch it warns
and returns zero; on success of pipe.execute it records each
constituent as a success at the average duration and returns the batch
size; on failure it records each constituent as a failure at the
average duration and re-raises, but the re-raise is caught by the outer
handler of the same method, which logs and returns zero, so nothing
escapes to the worker loop. -/
def pipelineExecuteOperation (operations : List String) (elapsed : ℚ)
    (failure : Option String) : BatchResult :=
  let n := operations.length
  if n = 0 then ⟨[], 0, false⟩
  else
    let avgDuration := elapsed / (n : ℚ)
    match failure with
    | some errName =>
        ⟨operations.map (fun op => ⟨op, avgDuration, false, some errName⟩), 0, false⟩
    | none =>
        ⟨operations.map (fun op => ⟨op, avgDuration, true, none⟩), n, false⟩

/-- Model of TransactionWorkload.execute_operation (lines 464-518): on
success each constituent is recorded as a success at the average
duration and the batch size is returned; on failure the outer handler
records a single failure under the MULTI/EXEC identifier with duration
zero and returns zero; an empty batch warns and returns zero. -/
def transactionExecuteOperation (operations : List String) (elapsed : ℚ)
    (failure : Option String) : BatchResult :=
  let n := operations.length
  if n = 0 then ⟨[], 0, false⟩
  else
    match failure with
    | some errName =>
        ⟨[⟨"MULTI/EXEC", 0, false, some errName⟩], 0, false⟩
    | none =>
        let avgDuration := elapsed / (n : ℚ)
        ⟨operations.map (fun op => ⟨op, avgDuration, true, none⟩), n, false⟩

/-! ### Pub/sub metrics (workloads.py PubSubWorkload, redis_client.py) -/

/-- One pub/sub metrics event. Modelled from the spec: the method
record_pubsub_operation of MetricsCollector is called from workloads.py
and redis_client.py but is absent from src/metrics.py; per the spec it
is a specialization of record with the same contract, recording one
metrics event per call, tagged with the channel, the direction, and for
the subscriber side a workload-instance-unique subscriber identifier. -/
structure PubSubEvent where
  channel : String
  direction : String
  subscriberId : Option String
  success : Bool
  errorType : Option String
  deriving Repr, DecidableEq

/-- Modelled from the spec: record_pubsub_operation appends exactly one
pub/sub event to the collector state. -/
def recordPubSubOperation (events : List PubSubEvent) (channel direction : String)
    (subscriberId : Option String) (success : Bool) (errorType : Option String) :
    List PubSubEvent :=
  events ++ [⟨channel, direction, subscriberId, success, errorType⟩]

/-- A message as returned by one poll of pubsub.get_message in the
subscriber loop. -/
structure PolledMessage where
  mtype : String
  channel : String
  deriving Repr, DecidableEq

/-- Model of one iteration of the subscriber loop body of
PubSubWorkload (workloads.py lines 545-566), on the events it records:
a polled payload message (type message) records exactly one RECEIVE
event tagged with the subscriber identifier of the workload instance;
a control message or an empty poll records nothing. -/
def subscriberHandleMessage (events : List PubSubEvent) (subscriberId : String)
    (msg : Option PolledMessage) : List PubSubEvent :=
  match msg with
  | none => events
  | some m =>
      if m.mtype = "message" then
        recordPubSubOperation events m.channel "RECEIVE" (some subscriberId) true none
      else events

/-- Model of RedisClient.publish (redis_client.py lines 486-502) on the
metrics it records: one general PUBLISH operation record and one
pub/sub PUBLISH event for the channel, in both the success and the
failure path; on failure the exception is re-raised. -/
def publishExecute (channel : String) (duration : ℚ) (failure : Option String) :
    List OpRecord × List PubSubEvent × Bool :=
  match failure with
  | none =>
      ([⟨"PUBLISH", duration, true, none⟩],
       [⟨channel, "PUBLISH", none, true, none⟩], false)
  | some errName =>
      ([⟨"PUBLISH", duration, false, some errName⟩],
       [⟨channel, "PUBLISH", none, false, some errName⟩], true)

/-! ### Percentile pipeline (metrics.py, MetricsCollector.get_operation_stats) -/

/-- Ascending sort as performed by the Python statistics module before
computing a median or quantiles. -/
def sortLatencies (l : List ℚ) : List ℚ := List.insertionSort (· ≤ ·) l

/-- Model of statistics.median: sort, take the middle element for odd
length, the mean of the two middle elements for even length. -/
def pyMedian (l : List ℚ) : ℚ :=
  let s := sortLatencies l
  let n := l.length
  if n % 2 = 1 then s.getD (n / 2) 0
  else (s.getD (n / 2 - 1) 0 + s.getD (n / 2) 0) / 2

/-- Cut point number i out of n of statistics.quantiles with the
default exclusive method, applied to sorted data s: with m the length
of s plus one, j the clamped floor of i m / n and delta the exact
remainder i m minus j n, the cut point interpolates between the
adjacent order statistics at positions j and j plus one. -/
def pyQuantileCut (s : List ℚ) (n i : Nat) : ℚ :=
  let ld := s.length
  let m := ld + 1
  let j0 := (i * m) / n
  let j := if j0 < 1 then 1 else if ld - 1 < j0 then ld - 1 else j0
  let delta : Int := ((i * m : Nat) : Int) - ((j * n : Nat) : Int)
  (s.getD (j - 1) 0 * ((n : ℚ) - (delta : ℚ)) + s.getD j 0 * (delta : ℚ)) / (n : ℚ)

/-- Model of statistics.quantiles with the exclusive method: sort the
data and return the n minus one cut points. -/
def pyQuantiles (l : List ℚ) (n : Nat) : List ℚ :=
  let s := sortLatencies l
  (List.range (n - 1)).map (fun k => pyQuantileCut s n (k + 1))

/-- Model of the Python builtin max over a latency window. -/
def pyMax : List ℚ → ℚ
  | [] => 0
  | x :: xs => xs.foldl max x

/-- Percentile fields of one operation entry of get_operation_stats
(metrics.py lines 389-396). -/
structure PercentileStats where
  p50 : ℚ
  p95 : ℚ
  p99 : ℚ
  deriving Repr, DecidableEq

/-- Model of the percentile computation of get_operation_stats: the
median latency, the nineteenth of twenty quantile cut points when the
window holds at least twenty samples and the maximum otherwise, and the
ninety-ninth of one hundred cut points when the window holds at least
one hundred samples and the maximum otherwise. -/
def getOperationPercentiles (latencies : List ℚ) : PercentileStats :=
  { p50 := pyMedian latencies
    p95 := if 20 ≤ latencies.length then (pyQuantiles latencies 20).getD 18 0
           else pyMax latencies
    p99 := if 100 ≤ latencies.length then (pyQuantiles latencies 100).getD 98 0
           else pyMax latencies }

/-- Median expressed directly on a sorted window, used to state the
amended percentile claim. -/
def medianOfSorted (s : List ℚ) : ℚ :=
  if s.length % 2 = 1 then s.getD (s.length / 2) 0
  else (s.getD (s.length / 2 - 1) 0 + s.getD (s.length / 2) 0) / 2

/-- Interpolated percentile as stated by the amended claim: the cut
point lies delta over n of the way from the order statistic at the
clamped position j to the next one. -/
def interpolatedCut (s : List ℚ) (n i : Nat) : ℚ :=
  let ld := s.length
  let j0 := (i * (ld + 1)) / n
  let j := if j0 < 1 then 1 else if ld - 1 < j0 then ld - 1 else j0
  let delta : Int := ((i * (ld + 1) : Nat) : Int) - ((j * n : Nat) : Int)
  s.getD (j - 1) 0 + ((delta : ℚ) / (n : ℚ)) * (s.getD j 0 - s.getD (j - 1) 0)

/-- The concrete latency window one to twenty used as the test input
for the percentile claims. -/
def windowTwenty : List ℚ := (List.range 20).map (fun i => ((i + 1 : Nat) : ℚ))

/-! ### Metrics aggregator state (metrics.py, MetricsCollector.record_operation) -/

/-- Capacity of the bounded latency window (deque maxlen in
OperationMetrics). -/
def windowMaxLen : Nat := 10000

/-- Append to a bounded window: a full window evicts its oldest
element, as deque with maxlen does. -/
def pushLatency (w : List ℚ) (d : ℚ) : List ℚ :=
  if w.length < windowMaxLen then w ++ [d] else w.tail ++ [d]

/-- Model of the OperationMetrics dataclass (metrics.py lines 32-40). -/
structure OperationMetrics where
  total_count : Nat
  success_count : Nat
  error_count : Nat
  total_duration : ℚ
  latencies : List ℚ
  errors_by_type : List (String × Nat)
  deriving Repr, DecidableEq

/-- Entry created lazily by the defaultdict on first observation. -/
def emptyOperationMetrics : OperationMetrics := ⟨0, 0, 0, 0, [], []⟩

/-- Increment of the per-error-kind histogram (defaultdict of int). -/
def bumpErrorCount : List (String × Nat) → String → List (String × Nat)
  | [], e => [(e, 1)]
  | (k, v) :: rest, e =>
      if k = e then (k, v + 1) :: rest else (k, v) :: bumpErrorCount rest e

/-- Model of the in-memory update of record_operation (metrics.py lines
225-238) on the entry of one operation. -/
def recordIntoEntry (m : OperationMetrics) (duration : ℚ) (success : Bool)
    (errorType : Option String) : OperationMetrics :=
  { total_count := m.total_count + 1
    total_duration := m.total_duration + duration
    latencies := pushLatency m.latencies duration
    success_count := if success then m.success_count + 1 else m.success_count
    error_count := if success then m.error_count else m.error_count + 1
    errors_by_type :=
      if success then m.errors_by_type
      else
        match errorType with
        | some e => bumpErrorCount m.errors_by_type e
        | none => m.errors_by_type }

/-- Arguments of one record_operation call. -/
structure RecordCall where
  operation : String
  duration : ℚ
  success : Bool
  errorType : Option String

/-- One record_operation call applied to the collector state, viewed as
the map from operation identifiers to their entries. -/
def recordOperation (st : String → OperationMetrics) (c : RecordCall) :
    String → OperationMetrics :=
  fun op =>
    if op = c.operation then recordIntoEntry (st op) c.duration c.success c.errorType
    else st op

/-- Collector state after a sequence of record_operation calls, started
from the empty defaultdict. -/
def applyRecordCalls (calls : List RecordCall) : String → OperationMetrics :=
  calls.foldl recordOperation (fun _ => emptyOperationMetrics)

/-- Durations of the calls that targeted one operation, in call
order. -/
def durationsFor (calls : List RecordCall) (op : String) : List ℚ :=
  (calls.filter (fun c => c.operation == op)).map (fun c => c.duration)

/-- The suffix a bounded window retains: the most recent entries, at
most the window capacity, oldest evicted first. -/
def recentWindow (xs : List ℚ) : List ℚ := xs.drop (xs.length - windowMaxLen)

/-! ## Claims -/

/-- C1: the claim says the final summary is emitted exactly once in
every shutdown path. This fails on the all-workers-failed path: the
last failing worker sets the shared stop event directly, so the stop
routine called from the finally block of start sees the event already
set, returns early, and the summary is emitted zero times; the signal
path and the elapsed-duration path emit it exactly once. -/
theorem finalSummary_allWorkersFailed_zero :
    (signalShutdownPath initialRunnerState).summaryCount = 1 ∧
    (durationShutdownPath initialRunnerState).summaryCount = 1 ∧
    (allWorkersFailedPath initialRunnerState).summaryCount = 0 := by
  decide

/-- C4 counterexample: with two creation attempts of which the first
succeeds and the second fails, the start routine of TestRunner aborts
the whole run even though one handle was obtained; the
tolerate-and-continue policy the claim describes is only implemented in
RedisClientManager, which TestRunner does not use. -/
theorem clientPool_partialFailure_counterexample :
    runnerCreateClients [true, false] = Except.error "client creation failed" ∧
    managerInitClients [true, false] = Except.ok 1 :=
  ⟨rfl, rfl⟩

/-- C4 amended: in the engine (TestRunner.start), any individual
client-creation failure aborts the run, so allocation succeeds exactly
when every attempt succeeds; the claimed policy — individual failures
tolerated, fatal only when zero handles result — is the behavior of
RedisClientManager, a class the runner does not use. -/
theorem clientPool_allocation_amended (attempts : List Bool) :
    runnerCreateClients attempts =
      (if attempts.all (fun b => b) then Except.ok attempts.length
       else Except.error "client creation failed") ∧
    managerInitClients attempts =
      (if attempts.count true = 0 then
        Except.error "Failed to create any Redis client instances"
       else Except.ok (attempts.count true)) := by
  constructor
  · induction attempts with
    | nil => rfl
    | cons a rest ih =>
      cases a
      · simp [runnerCreateClients]
      · simp only [runnerCreateClients, if_true, ih]
        by_cases hall : rest.all (fun b => b)
        · simp [hall, Except.map]
        · simp [hall, Except.map]
  · have hcount : attempts.count true = (attempts.filter (fun b => b)).length := by
      simp [List.count, List.countP_eq_length_filter]
    rw [managerInitClients, hcount]

/-- C7: with a configured positive global target T and W workers
(clients times threads per client, both positive), the per-worker
target is T divided by W; after a unit of work, if the cumulative count
exceeds elapsed times the per-worker target, the worker sleeps for the
excess divided by the per-worker target, capped at one tenth of a
second, and otherwise does not sleep; with no configured target no
pacing sleep ever occurs. -/
theorem rateLimiter_perWorker (T c th : Nat) (elapsed count : ℚ)
    (hT : 0 < T) (hc : 0 < c) (hth : 0 < th) :
    threadTargetOps (some T) c th = some ((T : ℚ) / ((c * th : Nat) : ℚ)) ∧
    pacingSleep (some ((T : ℚ) / ((c * th : Nat) : ℚ))) elapsed count =
      (if elapsed * ((T : ℚ) / ((c * th : Nat) : ℚ)) < count then
        min ((count - elapsed * ((T : ℚ) / ((c * th : Nat) : ℚ))) /
             ((T : ℚ) / ((c * th : Nat) : ℚ))) (1 / 10)
      else 0) ∧
    pacingSleep none elapsed count = 0 := by
  have hW : (0 : ℚ) < ((c * th : Nat) : ℚ) := by
    exact_mod_cast Nat.mul_pos hc hth
  have htt : (0 : ℚ) < (T : ℚ) / ((c * th : Nat) : ℚ) :=
    div_pos (by exact_mod_cast hT) hW
  refine ⟨?_, ?_, rfl⟩
  · simp [threadTargetOps, Nat.pos_iff_ne_zero.mp hT]
  · simp only [pacingSleep]
    by_cases h1 : elapsed * ((T : ℚ) / ((c * th : Nat) : ℚ)) < count
    · rw [if_pos h1, if_pos h1, if_pos (div_pos (sub_pos.2 h1) htt)]
    · rw [if_neg h1, if_neg h1]

/-- C7 witness at target 100, two clients with five threads each. -/
theorem rateLimiter_perWorker_witness :
    (0 < 100 ∧ 0 < 2 ∧ 0 < 5) ∧
    (threadTargetOps (some 100) 2 5 = some ((100 : ℚ) / ((2 * 5 : Nat) : ℚ)) ∧
     pacingSleep (some ((100 : ℚ) / ((2 * 5 : Nat) : ℚ))) 3 50 =
       (if (3 : ℚ) * ((100 : ℚ) / ((2 * 5 : Nat) : ℚ)) < 50 then
         min (((50 : ℚ) - 3 * ((100 : ℚ) / ((2 * 5 : Nat) : ℚ))) /
              ((100 : ℚ) / ((2 * 5 : Nat) : ℚ))) (1 / 10)
       else 0) ∧
     pacingSleep none 3 50 = 0) :=
  ⟨⟨by decide, by decide, by decide⟩,
   rateLimiter_perWorker 100 2 5 3 50 (by decide) (by decide) (by decide)⟩

/-- C8 counterexample: with an empty operation list but a configured
nonempty weight map, selection falls back to the default operation set
of the workload type instead of a weighted choice over the map, because
the code checks the operation list first. -/
theorem operationSelection_counterexample :
    chooseOperation [] [("SET", 1)] "get_set" =
      Selection.uniform ["SET", "GET", "INCR", "DECR", "DEL", "EXISTS"] ∧
    chooseOperation [] [("SET", 1)] "get_set" ≠ Selection.weighted [("SET", 1)] := by
  refine ⟨rfl, fun h => ?_⟩
  rw [show chooseOperation [] [("SET", 1)] "get_set" =
      Selection.uniform ["SET", "GET", "INCR", "DECR", "DEL", "EXISTS"] from rfl] at h
  exact Selection.noConfusion h

/-- C8 amended: selection precedence is operation-list first — an empty
operation list falls back to the built-in default set of the workload
type even when a weight map is configured; otherwise a nonempty weight
map gives a weighted choice over the map and an empty one a uniform
choice over the operation list; in every case the carrier handed to the
random primitive is nonempty, so selection is well-defined, also when
the weight map is empty. -/
theorem operationSelection_amended (operations : List String)
    (operationWeights : List (String × ℚ)) (workloadType : String) :
    chooseOperation operations operationWeights workloadType =
      (if operations = [] then Selection.uniform (defaultOperations workloadType)
       else if operationWeights = [] then Selection.uniform operations
       else Selection.weighted operationWeights) ∧
    selectionWellDefined (chooseOperation operations operationWeights workloadType) = true := by
  have hdef : (defaultOperations workloadType).isEmpty = false := by
    unfold defaultOperations
    split_ifs <;> rfl
  unfold chooseOperation selectionWellDefined
  rcases operations with _ | ⟨o, os⟩
  · simpa [selectionWellDefined] using hdef
  · rcases operationWeights with _ | ⟨w, ws⟩
    · simp [selectionWellDefined]
    · simp [selectionWellDefined]

/-- C2: one iteration of the subscriber loop that polls a payload
message records exactly one pub/sub RECEIVE event, tagged with the
subscriber identifier of the workload instance; an empty poll records
nothing; and every publish call records exactly one pub/sub PUBLISH
event for its channel on both the success and the failure path. -/
theorem pubsub_metrics_per_message (events : List PubSubEvent) (sid : String)
    (m : PolledMessage) (hm : m.mtype = "message") (channel : String) (d : ℚ)
    (failure : Option String) :
    subscriberHandleMessage events sid (some m) =
      events ++ [⟨m.channel, "RECEIVE", some sid, true, none⟩] ∧
    subscriberHandleMessage events sid none = events ∧
    (publishExecute channel d failure).2.1 =
      [⟨channel, "PUBLISH", none, failure.isNone, failure⟩] := by
  refine ⟨?_, rfl, ?_⟩
  · simp [subscriberHandleMessage, hm, recordPubSubOperation]
  · cases failure <;> rfl

/-- C2 witness on a payload message for channel ch1 and one successful
publish. -/
theorem pubsub_metrics_per_message_witness :
    (PolledMessage.mk "message" "ch1").mtype = "message" ∧
    (subscriberHandleMessage [] "subscriber_ab" (some ⟨"message", "ch1"⟩) =
      [] ++ [⟨"ch1", "RECEIVE", some "subscriber_ab", true, none⟩] ∧
     subscriberHandleMessage [] "subscriber_ab" none = [] ∧
     (publishExecute "ch1" 1 (none : Option String)).2.1 =
       [⟨"ch1", "PUBLISH", none, (none : Option String).isNone, none⟩]) :=
  ⟨rfl, pubsub_metrics_per_message [] "subscriber_ab" ⟨"message", "ch1"⟩ rfl "ch1" 1 none⟩

/-- C5: a successful batch execution of B constituent operations with
total measured duration D — pipeline or transaction alike — records
exactly B success records, each with duration D divided by B, returns
B, and the recorded durations sum back to D exactly. -/
theorem batch_success_even_split (ops : List String) (elapsed : ℚ) (h : ops ≠ []) :
    pipelineExecuteOperation ops elapsed none =
      ⟨ops.map (fun op => ⟨op, elapsed / (ops.length : ℚ), true, none⟩),
       ops.length, false⟩ ∧
    transactionExecuteOperation ops elapsed none =
      ⟨ops.map (fun op => ⟨op, elapsed / (ops.length : ℚ), true, none⟩),
       ops.length, false⟩ ∧
    ((pipelineExecuteOperation ops elapsed none).records.map OpRecord.duration).sum
      = elapsed ∧
    ((transactionExecuteOperation ops elapsed none).records.map OpRecord.duration).sum
      = elapsed := by
  have hn : ops.length ≠ 0 := by simpa using h
  have hq : ((ops.length : ℚ)) ≠ 0 := by exact_mod_cast hn
  have h1 : pipelineExecuteOperation ops elapsed none =
      ⟨ops.map (fun op => ⟨op, elapsed / (ops.length : ℚ), true, none⟩),
       ops.length, false⟩ := by
    simp [pipelineExecuteOperation, hn]
  have h2 : transactionExecuteOperation ops elapsed none =
      ⟨ops.map (fun op => ⟨op, elapsed / (ops.length : ℚ), true, none⟩),
       ops.length, false⟩ := by
    simp [transactionExecuteOperation, hn]
  have hsum :
      ((ops.map (fun op =>
          (⟨op, elapsed / (ops.length : ℚ), true, none⟩ : OpRecord))).map
        OpRecord.duration).sum = elapsed := by
    rw [List.map_map]
    have hrep : (ops.map (fun _ : String => elapsed / (ops.length : ℚ))) =
        List.replicate ops.length (elapsed / (ops.length : ℚ)) := by
      simp [List.map_const']
    calc ((ops.map (fun _ : String => elapsed / (ops.length : ℚ)))).sum
        = (List.replicate ops.length (elapsed / (ops.length : ℚ))).sum := by rw [hrep]
      _ = ops.length • (elapsed / (ops.length : ℚ)) := List.sum_replicate _ _
      _ = (ops.length : ℚ) * (elapsed / (ops.length : ℚ)) := nsmul_eq_mul _ _
      _ = elapsed := by field_simp
  exact ⟨h1, h2, by rw [h1]; exact hsum, by rw [h2]; exact hsum⟩

/-- C5 witness for a pipeline and a transaction batch of two operations
with total duration one. -/
theorem batch_success_even_split_witness :
    (["SET", "GET"] : List String) ≠ [] ∧
    (pipelineExecuteOperation ["SET", "GET"] 1 none =
      ⟨(["SET", "GET"] : List String).map
          (fun op => ⟨op, 1 / ((["SET", "GET"] : List String).length : ℚ), true, none⟩),
       (["SET", "GET"] : List String).length, false⟩ ∧
     transactionExecuteOperation ["SET", "GET"] 1 none =
      ⟨(["SET", "GET"] : List String).map
          (fun op => ⟨op, 1 / ((["SET", "GET"] : List String).length : ℚ), true, none⟩),
       (["SET", "GET"] : List String).length, false⟩ ∧
     ((pipelineExecuteOperation ["SET", "GET"] 1 none).records.map
        OpRecord.duration).sum = 1 ∧
     ((transactionExecuteOperation ["SET", "GET"] 1 none).records.map
        OpRecord.duration).sum = 1) :=
  ⟨by decide, batch_success_even_split ["SET", "GET"] 1 (by decide)⟩

/-- C3 counterexample: a failing transaction batch of the two
operations SET and GET with elapsed time one records a single failure
under the MULTI/EXEC identifier with duration zero — not one failure
per constituent with duration a half — and neither the transaction nor
the pipeline strategy lets the error escape to the worker loop: both
catch it and return zero. -/
theorem batch_failure_counterexample :
    transactionExecuteOperation ["SET", "GET"] 1 (some "ConnectionError") =
      ⟨[⟨"MULTI/EXEC", 0, false, some "ConnectionError"⟩], 0, false⟩ ∧
    (transactionExecuteOperation ["SET", "GET"] 1 (some "ConnectionError")).records.length
      ≠ 2 ∧
    (pipelineExecuteOperation ["SET", "GET"] 1 (some "ConnectionError")).raised = false ∧
    (transactionExecuteOperation ["SET", "GET"] 1 (some "ConnectionError")).raised
      = false := by
  refine ⟨rfl, ?_, rfl, rfl⟩
  intro hlen
  rw [show transactionExecuteOperation ["SET", "GET"] 1 (some "ConnectionError") =
      ⟨[⟨"MULTI/EXEC", 0, false, some "ConnectionError"⟩], 0, false⟩ from rfl] at hlen
  exact absurd hlen (by decide)

/-- C3 amended: on a failing pipeline batch each of the B constituent
identifiers is recorded as a failure with duration D divided by B (and
those durations still sum to D), but the re-raised error is caught by
the outer handler of the same strategy method, which returns zero, so
nothing propagates to the worker loop; a failing transaction batch
records a single failure under the MULTI/EXEC identifier with duration
zero and likewise returns zero without propagating. -/
theorem batch_failure_amended (ops : List String) (elapsed : ℚ) (errName : String)
    (h : ops ≠ []) :
    pipelineExecuteOperation ops elapsed (some errName) =
      ⟨ops.map (fun op => ⟨op, elapsed / (ops.length : ℚ), false, some errName⟩),
       0, false⟩ ∧
    transactionExecuteOperation ops elapsed (some errName) =
      ⟨[⟨"MULTI/EXEC", 0, false, some errName⟩], 0, false⟩ ∧
    ((pipelineExecuteOperation ops elapsed (some errName)).records.map
       OpRecord.duration).sum = elapsed := by
  have hn : ops.length ≠ 0 := by simpa using h
  have hq : ((ops.length : ℚ)) ≠ 0 := by exact_mod_cast hn
  have h1 : pipelineExecuteOperation ops elapsed (some errName) =
      ⟨ops.map (fun op => ⟨op, elapsed / (ops.length : ℚ), false, some errName⟩),
       0, false⟩ := by
    simp [pipelineExecuteOperation, hn]
  have h2 : transactionExecuteOperation ops elapsed (some errName) =
      ⟨[⟨"MULTI/EXEC", 0, false, some errName⟩], 0, false⟩ := by
    simp [transactionExecuteOperation, hn]
  refine ⟨h1, h2, ?_⟩
  rw [h1, List.map_map]
  have hrep : (ops.map (fun _ : String => elapsed / (ops.length : ℚ))) =
      List.replicate ops.length (elapsed / (ops.length : ℚ)) := by
    simp [List.map_const']
  calc ((ops.map (fun _ : String => elapsed / (ops.length : ℚ)))).sum
      = (List.replicate ops.length (elapsed / (ops.length : ℚ))).sum := by rw [hrep]
    _ = ops.length • (elapsed / (ops.length : ℚ)) := List.sum_replicate _ _
    _ = (ops.length : ℚ) * (elapsed / (ops.length : ℚ)) := nsmul_eq_mul _ _
    _ = elapsed := by field_simp

/-- C3 amended witness for a failing batch of two operations. -/
theorem batch_failure_amended_witness :
    (["SET", "GET"] : List String) ≠ [] ∧
    (pipelineExecuteOperation ["SET", "GET"] 1 (some "ConnectionError") =
      ⟨(["SET", "GET"] : List String).map
          (fun op => ⟨op, 1 / ((["SET", "GET"] : List String).length : ℚ), false,
            some "ConnectionError"⟩),
       0, false⟩ ∧
     transactionExecuteOperation ["SET", "GET"] 1 (some "ConnectionError") =
      ⟨[⟨"MULTI/EXEC", 0, false, some "ConnectionError"⟩], 0, false⟩ ∧
     ((pipelineExecuteOperation ["SET", "GET"] 1 (some "ConnectionError")).records.map
        OpRecord.duration).sum = 1) :=
  ⟨by decide, batch_failure_amended ["SET", "GET"] 1 "ConnectionError" (by decide)⟩

/-- C9 counterexample: with prefix rw_test, keyRange 10000, operation
SET and drawn id 42, the generated key is rw_test:set:42 — the key
embeds the lowercased operation name between the prefix and the id, so
it differs from the claimed form of prefix, colon, id. -/
theorem keyGeneration_counterexample :
    (generateKey "rw_test" 10000 (some "SET") 42 0).1 = "rw_test:set:42" ∧
    (generateKey "rw_test" 10000 (some "SET") 42 0).1 ≠
      "rw_test:" ++ toString (42 : Int) := by
  constructor <;> decide

/-- Keys generated with keyRange zero carry the successive counter
values: the i-th of n generations started at counter c uses id c plus
i. -/
theorem generateKeySeq_getElem (keyPref op : String) :
    ∀ (n i : Nat) (c : Int), i < n →
      (generateKeySeq keyPref op n c)[i]? =
        some (keyPref ++ ":" ++ asciiLower op ++ ":" ++ toString (c + (i : Int))) := by
  intro n
  induction n with
  | zero => intro i c h; exact absurd h (Nat.not_lt_zero i)
  | succ n ih =>
    intro i c h
    cases i with
    | zero =>
      simp [generateKeySeq, generateKey]
    | succ i =>
      have h2 : i < n := Nat.lt_of_succ_lt_succ h
      have hc : (c + 1) + (i : Int) = c + ((i + 1 : Nat) : Int) := by push_cast; ring
      simp only [generateKeySeq, generateKey]
      rw [List.getElem?_cons_succ]
      rw [show (if (0 : Int) < 0 then c else c + 1) = c + 1 from rfl]
      rw [ih i (c + 1) h2, hc]

/-- C9 amended: every key generated by a workload strategy is the
configured prefix, a colon, the lowercased operation tag passed by the
strategy, a colon, and the id; the id is the drawn random value when
keyRange is positive (the draw ranging over zero to keyRange minus one)
and the per-instance counter otherwise, the counter starting at zero
and incrementing once per generation, so the i-th generation under
keyRange zero uses id i. -/
theorem keyGeneration_amended (keyPref op : String) (keyRange randDraw counter : Int)
    (n i : Nat) (h : i < n) :
    generateKey keyPref keyRange (some op) randDraw counter =
      (keyPref ++ ":" ++ asciiLower op ++ ":" ++
        toString (if 0 < keyRange then randDraw else counter),
       if 0 < keyRange then counter else counter + 1) ∧
    (generateKeySeq keyPref op n 0)[i]? =
      some (keyPref ++ ":" ++ asciiLower op ++ ":" ++ toString ((i : Nat) : Int)) := by
  refine ⟨rfl, ?_⟩
  have := generateKeySeq_getElem keyPref op n i 0 h
  simpa using this

/-- C9 amended witness: three generations under keyRange zero and one
under keyRange 10000. -/
theorem keyGeneration_amended_witness :
    1 < 3 ∧
    (generateKey "k" 10000 (some "SET") 7 0 =
      ("k" ++ ":" ++ asciiLower "SET" ++ ":" ++
        toString (if (0 : Int) < 10000 then (7 : Int) else 0),
       if (0 : Int) < 10000 then (0 : Int) else 0 + 1) ∧
     (generateKeySeq "k" "SET" 3 0)[1]? =
      some ("k" ++ ":" ++ asciiLower "SET" ++ ":" ++ toString ((1 : Nat) : Int))) :=
  ⟨by decide, keyGeneration_amended "k" "SET" 10000 7 0 3 1 (by decide)⟩

/-- Cut point extraction: entry k of the quantile list is the cut point
for i equal to k plus one over the sorted data. -/
theorem pyQuantiles_getD (l : List ℚ) (n k : Nat) (hk : k < n - 1) :
    (pyQuantiles l n).getD k 0 = pyQuantileCut (sortLatencies l) n (k + 1) := by
  simp [pyQuantiles, List.getD_eq_getElem?_getD, List.getElem?_map,
    List.getElem?_range, hk]

/-- The weighted-average form of a quantile cut point equals its
interpolation form. -/
theorem pyQuantileCut_eq_interpolatedCut (s : List ℚ) (n i : Nat) (hn : n ≠ 0) :
    pyQuantileCut s n i = interpolatedCut s n i := by
  have hq : ((n : ℚ)) ≠ 0 := by exact_mod_cast hn
  simp only [pyQuantileCut, interpolatedCut]
  field_simp
  ring

/-- C6 counterexample: for the window of the latencies one to twenty,
the computed p95 is 399 over 20 — the exclusive-method interpolation
between the order statistics 19 and 20 — which is not an element of the
window, hence not the 95th-percentile order statistic the claim
states. -/
theorem percentile_counterexample :
    (getOperationPercentiles windowTwenty).p95 = 399 / 20 ∧
    (399 / 20 : ℚ) ∉ windowTwenty := by
  have hsort : sortLatencies windowTwenty = windowTwenty :=
    List.Sorted.insertionSort_eq (by decide)
  have hlen : windowTwenty.length = 20 := by decide
  constructor
  · simp only [getOperationPercentiles]
    rw [if_pos (by decide : 20 ≤ windowTwenty.length)]
    rw [pyQuantiles_getD windowTwenty 20 18 (by omega), hsort]
    simp only [pyQuantileCut, hlen]
    norm_num
    rw [show windowTwenty[18]?.getD 0 = 19 from by decide,
        show windowTwenty[19]?.getD 0 = 20 from by decide]
    norm_num
  · have hw : windowTwenty = [1, 2, 3, 4, 5, 6, 7, 8, 9, 10, 11, 12, 13, 14, 15,
        16, 17, 18, 19, 20] := by decide
    rw [hw]
    norm_num

/-- C6 amended: p50 is the exact median of the window; with at least 20
samples p95 is the exclusive-method interpolated 95th percentile of the
sorted window — lying delta over 20 of the way between the adjacent
order statistics at the clamped rescaled position — and the maximum
observed latency otherwise; p99 is the analogous interpolated 99th
percentile with at least 100 samples and the maximum otherwise. -/
theorem percentile_amended (l : List ℚ) (h : l ≠ []) :
    (getOperationPercentiles l).p50 = medianOfSorted (sortLatencies l) ∧
    (getOperationPercentiles l).p95 =
      (if 20 ≤ l.length then interpolatedCut (sortLatencies l) 20 19 else pyMax l) ∧
    (getOperationPercentiles l).p99 =
      (if 100 ≤ l.length then interpolatedCut (sortLatencies l) 100 99 else pyMax l) := by
  refine ⟨?_, ?_, ?_⟩
  · simp [getOperationPercentiles, pyMedian, medianOfSorted, sortLatencies,
      List.length_insertionSort]
  · simp only [getOperationPercentiles]
    by_cases h20 : 20 ≤ l.length
    · rw [if_pos h20, if_pos h20, pyQuantiles_getD l 20 18 (by omega),
        pyQuantileCut_eq_interpolatedCut _ _ _ (by norm_num)]
    · rw [if_neg h20, if_neg h20]
  · simp only [getOperationPercentiles]
    by_cases h100 : 100 ≤ l.length
    · rw [if_pos h100, if_pos h100, pyQuantiles_getD l 100 98 (by omega),
        pyQuantileCut_eq_interpolatedCut _ _ _ (by norm_num)]
    · rw [if_neg h100, if_neg h100]

/-- C6 amended witness on the window of the latencies one to twenty. -/
theorem percentile_amended_witness :
    windowTwenty ≠ [] ∧
    ((getOperationPercentiles windowTwenty).p50 =
      medianOfSorted (sortLatencies windowTwenty) ∧
     (getOperationPercentiles windowTwenty).p95 =
      (if 20 ≤ windowTwenty.length then
        interpolatedCut (sortLatencies windowTwenty) 20 19
       else pyMax windowTwenty) ∧
     (getOperationPercentiles windowTwenty).p99 =
      (if 100 ≤ windowTwenty.length then
        interpolatedCut (sortLatencies windowTwenty) 100 99
       else pyMax windowTwenty)) :=
  ⟨by decide, percentile_amended windowTwenty (by decide)⟩

/-- The collector state after one more record_operation call. -/
theorem applyRecordCalls_append (calls : List RecordCall) (c : RecordCall) :
    applyRecordCalls (calls ++ [c]) = recordOperation (applyRecordCalls calls) c := by
  simp [applyRecordCalls, List.foldl_append]

/-- Appending one duration to the bounded window of a duration list
yields the bounded window of the extended duration list. -/
theorem pushLatency_recentWindow (xs : List ℚ) (d : ℚ) :
    pushLatency (recentWindow xs) d = recentWindow (xs ++ [d]) := by
  have hNpos : 0 < windowMaxLen := by decide
  by_cases hlt : xs.length < windowMaxLen
  · have hwin : recentWindow xs = xs := by
      unfold recentWindow
      rw [Nat.sub_eq_zero_of_le (Nat.le_of_lt hlt), List.drop_zero]
    have hwin2 : recentWindow (xs ++ [d]) = xs ++ [d] := by
      unfold recentWindow
      rw [Nat.sub_eq_zero_of_le (by simp; omega), List.drop_zero]
    rw [hwin, hwin2]
    unfold pushLatency
    rw [if_pos hlt]
  · push_neg at hlt
    have hlen : (recentWindow xs).length = windowMaxLen := by
      unfold recentWindow
      rw [List.length_drop]
      omega
    unfold pushLatency
    rw [if_neg (by rw [hlen]; exact lt_irrefl _)]
    unfold recentWindow
    rw [List.tail_drop]
    rw [List.drop_append_of_le_length (by simp; omega)]
    have hidx : (xs ++ [d]).length - windowMaxLen = xs.length - windowMaxLen + 1 := by
      simp
      omega
    rw [hidx]

/-- Invariant tying the collector state after a call sequence to the
projections of that sequence, for every operation identifier. -/
theorem applyRecordCalls_projections (op : String) (calls : List RecordCall) :
    (applyRecordCalls calls op).total_count = (durationsFor calls op).length ∧
    (applyRecordCalls calls op).total_count =
      (applyRecordCalls calls op).success_count +
        (applyRecordCalls calls op).error_count ∧
    (applyRecordCalls calls op).total_duration = (durationsFor calls op).sum ∧
    (applyRecordCalls calls op).latencies = recentWindow (durationsFor calls op) := by
  induction calls using List.reverseRecOn with
  | nil => simp [applyRecordCalls, durationsFor, recentWindow, emptyOperationMetrics]
  | append_singleton calls c ih =>
    obtain ⟨ih1, ih2, ih3, ih4⟩ := ih
    rw [applyRecordCalls_append]
    by_cases hop : op = c.operation
    · have hco : (c.operation == op) = true := by simp [hop]
      have hdur : durationsFor (calls ++ [c]) op =
          durationsFor calls op ++ [c.duration] := by
        simp [durationsFor, List.filter_append, hco]
      refine ⟨?_, ?_, ?_, ?_⟩
      · simp [recordOperation, if_pos hop, recordIntoEntry, hdur, ih1]
      · simp only [recordOperation, if_pos hop, recordIntoEntry]
        cases c.success <;> simp <;> omega
      · simp [recordOperation, if_pos hop, recordIntoEntry, hdur, ih3]
      · simp only [recordOperation, if_pos hop, recordIntoEntry]
        rw [hdur, ih4, pushLatency_recentWindow]
    · have hco : (c.operation == op) = false := by
        simp
        exact fun heq => hop heq.symm
      have hdur : durationsFor (calls ++ [c]) op = durationsFor calls op := by
        simp [durationsFor, List.filter_append, hco]
      simp only [recordOperation, if_neg hop]
      exact ⟨by rw [hdur]; exact ih1, ih2, by rw [hdur]; exact ih3,
        by rw [hdur]; exact ih4⟩

/-- C10: after any sequence of record_operation calls, every
per-operation entry has its total count equal to success count plus
error count, its total duration equal to the sum of all durations
recorded for that operation, and a latency window holding exactly the
min of total count and 10000 most recently recorded durations, oldest
evicted first. -/
theorem metrics_record_invariant (calls : List RecordCall) (op : String) :
    (applyRecordCalls calls op).total_count =
      (applyRecordCalls calls op).success_count +
        (applyRecordCalls calls op).error_count ∧
    (applyRecordCalls calls op).total_duration = (durationsFor calls op).sum ∧
    (applyRecordCalls calls op).latencies = recentWindow (durationsFor calls op) ∧
    (applyRecordCalls calls op).latencies.length =
      min (applyRecordCalls calls op).total_count windowMaxLen := by
  obtain ⟨h1, h2, h3, h4⟩ := applyRecordCalls_projections op calls
  refine ⟨h2, h3, h4, ?_⟩
  rw [h4, h1, recentWindow, List.length_drop]
  omega

end RedisPyTestApp
